import Mathlib

/-!
Verification of the geospatial core of `ponto_medio_grafo` (`app.py`).

The development shallowly embeds the Python source:
* `GeoMath`: `haversine` and `geographic_centroid` over real numbers,
  with `math.atan2`, `math.radians`, `math.degrees` modelled explicitly;
* `GeocodingClient`: `extract_element`, `geocode_city`, `reverse_geocode`
  over a model of the remote service's JSON responses, with Python's
  exception distinctions (`ValueError` vs `KeyError`/`TypeError` vs
  `requests.RequestException`) kept as an explicit error type;
* the `/api/midpoint` pipeline `midpoint_api`, including the star graph,
  the `networkx` shortest-path calls, and the `midpoint_results` history,
  with network calls recorded as an explicit trace.
-/

namespace PontoMedio

open Real

/-! ### Model of `math.atan2`, `math.radians`, `math.degrees` -/

/-- Model of Python's `math.atan2 y x` (note the argument order: `y` first),
following its quadrant case analysis on real numbers. -/
noncomputable def atan2 (y x : ℝ) : ℝ :=
  if 0 < x then Real.arctan (y / x)
  else if x < 0 then
    (if 0 ≤ y then Real.arctan (y / x) + Real.pi else Real.arctan (y / x) - Real.pi)
  else
    (if 0 < y then Real.pi / 2 else if y < 0 then -(Real.pi / 2) else 0)

/-- Model of Python's `math.radians`: degrees to radians. -/
noncomputable def radians (x : ℝ) : ℝ := x * (Real.pi / 180)

/-- Model of Python's `math.degrees`: radians to degrees. -/
noncomputable def degrees (x : ℝ) : ℝ := x * (180 / Real.pi)

/-! ### `haversine` (app.py lines 114-129) -/

/-- The intermediate value `a` of `haversine`:
`sin(dphi/2)**2 + cos(phi1)*cos(phi2)*sin(dlambda/2)**2` with
`phi1 = radians lat1`, `phi2 = radians lat2`, `dphi = radians (lat2 - lat1)`,
`dlambda = radians (lon2 - lon1)`. -/
noncomputable def hav_a (lat1 lon1 lat2 lon2 : ℝ) : ℝ :=
  Real.sin (radians (lat2 - lat1) / 2) ^ 2 +
    Real.cos (radians lat1) * Real.cos (radians lat2) *
      Real.sin (radians (lon2 - lon1) / 2) ^ 2

/-- `haversine(lat1, lon1, lat2, lon2)` from app.py: `R * c` with `R = 6371.0`
and `c = 2 * atan2(sqrt(a), sqrt(1 - a))`. -/
noncomputable def haversine (lat1 lon1 lat2 lon2 : ℝ) : ℝ :=
  6371 * (2 * atan2 (Real.sqrt (hav_a lat1 lon1 lat2 lon2))
    (Real.sqrt (1 - hav_a lat1 lon1 lat2 lon2)))

/-! ### Error model

Python exception classes relevant to the pipeline, as raised by the source:
`ValueError` (explicit raises and `float(non-numeric-string)`), `KeyError`
(`element["latitude"]` on a missing key), `TypeError` (`float(None)` and the
like), and `requests.RequestException` (transport errors and
`raise_for_status`). -/
inductive PyErr where
  | valueError (msg : String)
  | keyError (key : String)
  | typeError
  | requestError
deriving DecidableEq

/-! ### `geographic_centroid` (app.py lines 132-163) -/

/-- The accumulation loop of `geographic_centroid`: starting from
`x_total = y_total = z_total = 0.0`, add the unit vector
`(cos lat·cos lon, cos lat·sin lon, sin lat)` (in radians) of each point. -/
noncomputable def sumVecs (points : List (ℝ × ℝ)) : ℝ × ℝ × ℝ :=
  points.foldl
    (fun acc p =>
      (acc.1 + Real.cos (radians p.1) * Real.cos (radians p.2),
       acc.2.1 + Real.cos (radians p.1) * Real.sin (radians p.2),
       acc.2.2 + Real.sin (radians p.1)))
    (0, 0, 0)

/-- `geographic_centroid(points)` from app.py: raises
`ValueError("Lista de pontos vazia no cálculo de centróide.")` on an empty
list (`if not points:`), otherwise averages the unit vectors componentwise and
recovers `(degrees lat_mid, degrees lon_mid)` via `atan2`. -/
noncomputable def geographic_centroid (points : List (ℝ × ℝ)) :
    Except PyErr (ℝ × ℝ) :=
  if points.isEmpty then
    .error (.valueError "Lista de pontos vazia no cálculo de centróide.")
  else
    let s := sumVecs points
    let n : ℝ := points.length
    let x_avg := s.1 / n
    let y_avg := s.2.1 / n
    let z_avg := s.2.2 / n
    let hyp := Real.sqrt (x_avg * x_avg + y_avg * y_avg)
    .ok (degrees (atan2 z_avg hyp), degrees (atan2 y_avg x_avg))

/-! ### Model of the remote service's JSON values and the GeocodingClient
(app.py lines 24-108)

A `PyVal` models a JSON value stored in an element record, as far as
`float(...)` is concerned: a number, a string (with its numeric parse if it
has one), or anything non-numeric such as `null`/objects. An `Element` is the
descriptive record (a key-value mapping). -/

/-- Model of a JSON value as seen by `float(...)`: `num x` is a JSON number
with value `x`; `str (some x)` is a numeric string parsing to `x`;
`str none` is a non-numeric string (`float` raises `ValueError`);
`null` is `None` or any other non-convertible value (`float` raises
`TypeError`). -/
inductive PyVal where
  | num (x : ℝ)
  | str (numVal : Option ℝ)
  | null

/-- Model of an element record: a mapping from field names to values,
looked up with `element["key"]`. -/
def Element := List (String × PyVal)

/-- Model of Python's `float(v)` applied to a `PyVal`. -/
def pyFloat : PyVal → Except PyErr ℝ
  | .num x => .ok x
  | .str (some x) => .ok x
  | .str none => .error (.valueError "could not convert string to float")
  | .null => .error .typeError

/-- Model of `element["key"]`: returns the value, or raises `KeyError`
when the key is absent. -/
def dictGet (e : Element) (k : String) : Except PyErr PyVal :=
  match e.lookup k with
  | some v => .ok v
  | none => .error (.keyError k)

/-- Model of a parsed 2xx JSON response body: the `success` flag
(`data.get("success") is True` collapsed to a `Bool`), the optional
top-level `"element"` field, and the optional nested
`"elements": {"element": ...}` field. -/
structure RespData where
  success : Bool
  element : Option Element
  elementsElement : Option Element

/-- Model of one remote HTTP exchange: either a transport-level failure
(timeout, connection error, or non-2xx status via `raise_for_status`,
all surfacing as `requests.RequestException`), or a parsed JSON payload. -/
inductive RemoteResp where
  | netError
  | payload (data : RespData)

/-- `extract_element(data, contexto)` from app.py: takes the `element`
object out of the response, accepting `{"element": ...}` or
`{"elements": {"element": ...}}`, and raising `ValueError` otherwise. -/
def extract_element (data : RespData) : Except PyErr Element :=
  match data.element with
  | some e => .ok e
  | none =>
    match data.elementsElement with
    | some e => .ok e
    | none => .error (.valueError "Resposta inesperada da API")

/-- Model of a network call made by the pipeline: a forward geocode of an
address, or a reverse geocode of coordinates. -/
inductive NetCall where
  | geo (address : String)
  | rev (lat lon : ℝ)

/-- The environment of a pipeline run: whether `GEOCODING_API_TOKEN` is set
(non-empty), and what the remote service answers to each forward and
reverse request. -/
structure Env where
  tokenSet : Bool
  geocode : String → RemoteResp
  reverse : ℝ → ℝ → RemoteResp

/-- `geocode_city(address)` from app.py, returning the result (or the raised
exception) together with the list of network calls performed: the missing
token check raises `ValueError` before any call; otherwise one POST to the
geocoding endpoint is made, then `raise_for_status`, the `success` check,
`extract_element`, and `float(element["latitude"])` /
`float(element["longitude"])` in that order. -/
def geocode_city (env : Env) (address : String) :
    Except PyErr (ℝ × ℝ × Element) × List NetCall :=
  if env.tokenSet = false then
    (.error (.valueError "Defina a variável de ambiente GEOCODING_API_TOKEN"),
     [])
  else
    (match env.geocode address with
     | .netError => .error .requestError
     | .payload data =>
       if data.success = false then
         .error (.valueError "Erro da API de geocoding")
       else
         match extract_element data with
         | .error e => .error e
         | .ok element =>
           match dictGet element "latitude" with
           | .error e => .error e
           | .ok latv =>
             match pyFloat latv with
             | .error e => .error e
             | .ok lat =>
               match dictGet element "longitude" with
               | .error e => .error e
               | .ok lonv =>
                 match pyFloat lonv with
                 | .error e => .error e
                 | .ok lon => .ok (lat, lon, element),
     [NetCall.geo address])

/-- `reverse_geocode(lat, lon)` from app.py: same token check, one POST to
the reverse endpoint, `raise_for_status`, the `success` check and
`extract_element`; no coordinate extraction. -/
def reverse_geocode (env : Env) (lat lon : ℝ) :
    Except PyErr Element × List NetCall :=
  if env.tokenSet = false then
    (.error (.valueError "Defina a variável de ambiente GEOCODING_API_TOKEN"),
     [])
  else
    (match env.reverse lat lon with
     | .netError => .error .requestError
     | .payload data =>
       if data.success = false then
         .error (.valueError "Erro da API de reverse")
       else extract_element data,
     [NetCall.rev lat lon])

/-! ### The star graph and `nx.shortest_path` (app.py lines 221-235)

The graph built by the pipeline always has the four nodes `"A"`, `"B"`,
`"C"`, `"M"` and the three weighted edges A-M, B-M, C-M. `nx.shortest_path`
with nonnegative weights (Dijkstra) returns a minimum-weight simple path, so
it is modelled as a choice of minimum-weight element among all simple paths,
enumerated explicitly. -/

/-- The node labels of the graph `G` built by `midpoint_api`. -/
inductive Node where
  | A
  | B
  | C
  | M
deriving DecidableEq

/-- The edge list of `G`: `("A","M")`, `("B","M")`, `("C","M")`. -/
def starEdges : List (Node × Node) := [(.A, .M), (.B, .M), (.C, .M)]

/-- Neighbours of a node in the undirected graph `G`. -/
def neighbors (n : Node) : List Node :=
  (starEdges.filter (fun e => e.1 = n)).map (fun e => e.2) ++
    (starEdges.filter (fun e => e.2 = n)).map (fun e => e.1)

/-- Enumeration of the simple paths from `cur` to `target` avoiding
`visited`, with fuel bounding the recursion depth (4 nodes suffice). -/
def simplePathsAux : Nat → Node → Node → List Node → List (List Node)
  | 0, _, _, _ => []
  | fuel + 1, cur, target, visited =>
    if cur = target then [[cur]]
    else
      ((neighbors cur).filter (fun nb => visited.contains nb = false)).flatMap
        (fun nb =>
          (simplePathsAux fuel nb target (cur :: visited)).map
            (fun p => cur :: p))

/-- All simple paths between two nodes of `G`. -/
def simplePaths (u v : Node) : List (List Node) := simplePathsAux 4 u v []

/-- The weight of an edge of `G`, as set by `G.add_edge(...)` with the three
haversine distances; pairs that are not edges get weight 0 (they are never
traversed by a path of `G`). -/
def edgeWeight (dA dB dC : ℝ) : Node → Node → ℝ := fun u v =>
  match u, v with
  | .A, .M => dA
  | .M, .A => dA
  | .B, .M => dB
  | .M, .B => dB
  | .C, .M => dC
  | .M, .C => dC
  | _, _ => 0

/-- Total weight of a path: the sum of the weights of consecutive edges. -/
noncomputable def pathWeight (w : Node → Node → ℝ) : List Node → ℝ
  | u :: v :: rest => w u v + pathWeight w (v :: rest)
  | _ => 0

/-- Model of `nx.shortest_path(G, u, v, weight="weight")`: a minimum-weight
element of the simple paths from `u` to `v` (Dijkstra's specification for
nonnegative weights; ties broken by enumeration order), or `none` when no
path exists (`networkx` raises in that case, which cannot happen in `G`). -/
noncomputable def nx_shortest_path (w : Node → Node → ℝ) (u v : Node) :
    Option (List Node) :=
  match simplePaths u v with
  | [] => none
  | p :: ps =>
    some (ps.foldl
      (fun best q => if pathWeight w q < pathWeight w best then q else best) p)

/-! ### The `/api/midpoint` pipeline (app.py lines 174-277) -/

/-- One resolved input city in the result record: the request string, the
geocoded coordinates, and the raw element. -/
structure CityInfo where
  input : String
  lat : ℝ
  lon : ℝ
  raw : Element

/-- The result record assembled by `midpoint_api` (the `result` dict):
per-city records, the midpoint with its reverse-geocoded element, the three
distances, and the three `graph.paths` entries. -/
structure MidpointResult where
  cityA : CityInfo
  cityB : CityInfo
  cityC : CityInfo
  midLat : ℝ
  midLon : ℝ
  midReverse : Element
  distA_M : ℝ
  distB_M : ℝ
  distC_M : ℝ
  path_A_B : Option (List Node)
  path_A_C : Option (List Node)
  path_B_C : Option (List Node)

/-- The HTTP response of `midpoint_api`: `ok` is the 200 `jsonify(result)`,
`clientError` the 400 `{"error": ...}` from `except ValueError`,
`networkError` the 502 from `except requests.RequestException`, and
`unhandled` an exception (such as `KeyError`) that no `except` clause
catches (Flask's generic 500). -/
inductive ApiResponse where
  | ok (result : MidpointResult)
  | clientError (msg : String)
  | networkError
  | unhandled (e : PyErr)

/-- How an exception raised inside the `try` block surfaces, following the
`except` clauses of `midpoint_api`. -/
def errResponse : PyErr → ApiResponse
  | .valueError m => .clientError m
  | .requestError => .networkError
  | .keyError k => .unhandled (.keyError k)
  | .typeError => .unhandled .typeError

/-- `midpoint_api` from app.py: validates that `cityA`, `cityB`, `cityC` are
all present and non-empty (`if not cityA or not cityB or not cityC`),
geocodes the three cities, computes the centroid, reverse-geocodes it,
computes the three distances, builds the star graph and its three shortest
paths, appends the result to `midpoint_results`, and returns it. The
function returns the response, the new history list, and the trace of
network calls. -/
noncomputable def midpoint_api (env : Env) (cityA cityB cityC : Option String)
    (history : List MidpointResult) :
    ApiResponse × List MidpointResult × List NetCall :=
  match cityA, cityB, cityC with
  | some a, some b, some c =>
    if a = "" ∨ b = "" ∨ c = "" then
      (.clientError "Forneça cityA, cityB e cityC", history, [])
    else
      match geocode_city env a with
      | (.error e, k1) => (errResponse e, history, k1)
      | (.ok (latA, lonA, rawA), k1) =>
        match geocode_city env b with
        | (.error e, k2) => (errResponse e, history, k1 ++ k2)
        | (.ok (latB, lonB, rawB), k2) =>
          match geocode_city env c with
          | (.error e, k3) => (errResponse e, history, k1 ++ k2 ++ k3)
          | (.ok (latC, lonC, rawC), k3) =>
            match geographic_centroid
                [(latA, lonA), (latB, lonB), (latC, lonC)] with
            | .error e => (errResponse e, history, k1 ++ k2 ++ k3)
            | .ok (latM, lonM) =>
              match reverse_geocode env latM lonM with
              | (.error e, k4) =>
                (errResponse e, history, k1 ++ k2 ++ k3 ++ k4)
              | (.ok midRaw, k4) =>
                let distA_M := haversine latA lonA latM lonM
                let distB_M := haversine latB lonB latM lonM
                let distC_M := haversine latC lonC latM lonM
                let w := edgeWeight distA_M distB_M distC_M
                let result : MidpointResult :=
                  ⟨⟨a, latA, lonA, rawA⟩, ⟨b, latB, lonB, rawB⟩,
                   ⟨c, latC, lonC, rawC⟩, latM, lonM, midRaw,
                   distA_M, distB_M, distC_M,
                   nx_shortest_path w .A .B,
                   nx_shortest_path w .A .C,
                   nx_shortest_path w .B .C⟩
                (.ok result, history ++ [result], k1 ++ k2 ++ k3 ++ k4)
  | _, _, _ => (.clientError "Forneça cityA, cityB e cityC", history, [])


/-! ### Concrete environments and accessors used in closed instantiations -/

/-- An element record with numeric latitude and longitude 0. -/
def elOK : Element := [("latitude", PyVal.num 0), ("longitude", PyVal.num 0)]

/-- An element record whose latitude is a non-numeric string. -/
def elStr : Element := [("latitude", PyVal.str none)]

/-- An element record with a numeric latitude but no longitude field. -/
def elNoLon : Element := [("latitude", PyVal.num 0)]

/-- An element record with no latitude field. -/
def elNoLat : Element := [("longitude", PyVal.num 0)]

/-- An environment in which every remote call succeeds with `elOK`. -/
def envOK : Env :=
  ⟨true, fun _ => .payload ⟨true, some elOK, none⟩,
   fun _ _ => .payload ⟨true, some elOK, none⟩⟩

/-- An environment in which every remote call fails at the transport level. -/
def envDown : Env := ⟨true, fun _ => .netError, fun _ _ => .netError⟩

/-- An environment whose geocode responses lack the latitude field. -/
def envNoLat : Env :=
  ⟨true, fun _ => .payload ⟨true, some elNoLat, none⟩, fun _ _ => .netError⟩

/-- An environment whose geocode responses succeed but whose reverse
endpoint is down. -/
def envRevFail : Env :=
  ⟨true, fun _ => .payload ⟨true, some elOK, none⟩, fun _ _ => .netError⟩

/-- A placeholder result record (used only as a default for `getRecord`). -/
def emptyRecord : MidpointResult :=
  ⟨⟨"", 0, 0, []⟩, ⟨"", 0, 0, []⟩, ⟨"", 0, 0, []⟩, 0, 0, [],
   0, 0, 0, none, none, none⟩

/-- The record carried by an `ok` response (or `emptyRecord` otherwise). -/
def getRecord (resp : ApiResponse) : MidpointResult :=
  match resp with
  | .ok r => r
  | _ => emptyRecord

/-- The coordinate carried by a successful centroid computation
(or `(0, 0)` otherwise). -/
noncomputable def centroidOr (ps : List (ℝ × ℝ)) : ℝ × ℝ :=
  match geographic_centroid ps with
  | .ok c => c
  | .error _ => (0, 0)

/-- Whether an `Except` computation succeeded. -/
def exceptOk {ε α : Type} : Except ε α → Bool
  | .ok _ => true
  | .error _ => false

/-! ### Basic lemmas about `atan2`, `radians`, `degrees` -/

lemma arctan_nonneg {x : ℝ} (h : 0 ≤ x) : 0 ≤ Real.arctan x := by
  have := Real.arctan_strictMono.monotone h
  rwa [Real.arctan_zero] at this

lemma arctan_nonpos {x : ℝ} (h : x ≤ 0) : Real.arctan x ≤ 0 := by
  have := Real.arctan_strictMono.monotone h
  rwa [Real.arctan_zero] at this

lemma atan2_of_pos {y x : ℝ} (h : 0 < x) : atan2 y x = Real.arctan (y / x) := by
  unfold atan2
  rw [if_pos h]

lemma atan2_of_neg_of_nonneg {y x : ℝ} (hx : x < 0) (hy : 0 ≤ y) :
    atan2 y x = Real.arctan (y / x) + Real.pi := by
  unfold atan2
  rw [if_neg (by linarith), if_pos hx, if_pos hy]

lemma atan2_of_neg_of_neg {y x : ℝ} (hx : x < 0) (hy : y < 0) :
    atan2 y x = Real.arctan (y / x) - Real.pi := by
  unfold atan2
  rw [if_neg (by linarith), if_pos hx, if_neg (by linarith)]

lemma atan2_of_zero_of_pos {y x : ℝ} (hx : x = 0) (hy : 0 < y) :
    atan2 y x = Real.pi / 2 := by
  unfold atan2
  rw [if_neg (by simp [hx]), if_neg (by simp [hx]), if_pos hy]

lemma atan2_of_zero_of_neg {y x : ℝ} (hx : x = 0) (hy : y < 0) :
    atan2 y x = -(Real.pi / 2) := by
  unfold atan2
  rw [if_neg (by simp [hx]), if_neg (by simp [hx]), if_neg (by linarith),
    if_pos hy]

lemma atan2_of_zero_of_zero {y x : ℝ} (hx : x = 0) (hy : y = 0) :
    atan2 y x = 0 := by
  unfold atan2
  rw [if_neg (by simp [hx]), if_neg (by simp [hx]), if_neg (by simp [hy]),
    if_neg (by simp [hy])]

lemma atan2_nonneg {y x : ℝ} (hy : 0 ≤ y) (hx : 0 ≤ x) : 0 ≤ atan2 y x := by
  rcases hx.lt_or_eq with h1 | h1
  · rw [atan2_of_pos h1]
    exact arctan_nonneg (div_nonneg hy h1.le)
  · rcases hy.lt_or_eq with h2 | h2
    · rw [atan2_of_zero_of_pos h1.symm h2]
      linarith [Real.pi_pos]
    · rw [atan2_of_zero_of_zero h1.symm h2.symm]

lemma atan2_le_pi_div_two {y x : ℝ} (hx : 0 ≤ x) : atan2 y x ≤ Real.pi / 2 := by
  rcases hx.lt_or_eq with h1 | h1
  · rw [atan2_of_pos h1]
    exact (Real.arctan_lt_pi_div_two _).le
  · rcases lt_trichotomy y 0 with h2 | h2 | h2
    · rw [atan2_of_zero_of_neg h1.symm h2]
      linarith [Real.pi_pos]
    · rw [atan2_of_zero_of_zero h1.symm h2]
      linarith [Real.pi_pos]
    · rw [atan2_of_zero_of_pos h1.symm h2]

lemma neg_pi_div_two_le_atan2 {y x : ℝ} (hx : 0 ≤ x) :
    -(Real.pi / 2) ≤ atan2 y x := by
  rcases hx.lt_or_eq with h1 | h1
  · rw [atan2_of_pos h1]
    exact (Real.neg_pi_div_two_lt_arctan _).le
  · rcases lt_trichotomy y 0 with h2 | h2 | h2
    · rw [atan2_of_zero_of_neg h1.symm h2]
    · rw [atan2_of_zero_of_zero h1.symm h2]
      linarith [Real.pi_pos]
    · rw [atan2_of_zero_of_pos h1.symm h2]
      linarith [Real.pi_pos]

lemma neg_pi_lt_atan2 (y x : ℝ) : -Real.pi < atan2 y x := by
  have hpi := Real.pi_pos
  rcases lt_trichotomy x 0 with h1 | h1 | h1
  · rcases le_or_lt 0 y with h2 | h2
    · rw [atan2_of_neg_of_nonneg h1 h2]
      linarith [Real.neg_pi_div_two_lt_arctan (y / x)]
    · rw [atan2_of_neg_of_neg h1 h2]
      have hyx : 0 < y / x := div_pos_iff.2 (Or.inr ⟨h2, h1⟩)
      have harc := Real.arctan_strictMono hyx
      rw [Real.arctan_zero] at harc
      linarith
  · rcases lt_trichotomy y 0 with h2 | h2 | h2
    · rw [atan2_of_zero_of_neg h1 h2]
      linarith
    · rw [atan2_of_zero_of_zero h1 h2]
      linarith
    · rw [atan2_of_zero_of_pos h1 h2]
      linarith
  · rw [atan2_of_pos h1]
    linarith [Real.neg_pi_div_two_lt_arctan (y / x)]

lemma atan2_le_pi (y x : ℝ) : atan2 y x ≤ Real.pi := by
  have hpi := Real.pi_pos
  rcases lt_trichotomy x 0 with h1 | h1 | h1
  · rcases le_or_lt 0 y with h2 | h2
    · rw [atan2_of_neg_of_nonneg h1 h2]
      have hyx : y / x ≤ 0 := div_nonpos_of_nonneg_of_nonpos h2 h1.le
      linarith [arctan_nonpos hyx]
    · rw [atan2_of_neg_of_neg h1 h2]
      linarith [Real.arctan_lt_pi_div_two (y / x)]
  · rcases lt_trichotomy y 0 with h2 | h2 | h2
    · rw [atan2_of_zero_of_neg h1 h2]
      linarith
    · rw [atan2_of_zero_of_zero h1 h2]
      linarith
    · rw [atan2_of_zero_of_pos h1 h2]
      linarith
  · rw [atan2_of_pos h1]
    linarith [Real.arctan_lt_pi_div_two (y / x)]

lemma atan2_eq_zero_iff_of_nonneg {y x : ℝ} (hy : 0 ≤ y) (hx : 0 ≤ x) :
    (atan2 y x = 0 ↔ y = 0) := by
  have hpi := Real.pi_pos
  rcases hx.lt_or_eq with h1 | h1
  · rw [atan2_of_pos h1, Real.arctan_eq_zero_iff, div_eq_zero_iff]
    constructor
    · rintro (h | h)
      · exact h
      · exact absurd h h1.ne'
    · exact fun h => Or.inl h
  · rcases hy.lt_or_eq with h2 | h2
    · rw [atan2_of_zero_of_pos h1.symm h2]
      constructor
      · intro h
        linarith
      · intro h
        exact absurd h.symm h2.ne
    · rw [atan2_of_zero_of_zero h1.symm h2.symm]
      simp [h2.symm]

lemma radians_le_radians {u v : ℝ} (h : u ≤ v) : radians u ≤ radians v := by
  unfold radians
  have : (0:ℝ) < Real.pi / 180 := div_pos Real.pi_pos (by norm_num)
  exact mul_le_mul_of_nonneg_right h this.le

lemma radians_lt_radians {u v : ℝ} (h : u < v) : radians u < radians v := by
  unfold radians
  have : (0:ℝ) < Real.pi / 180 := div_pos Real.pi_pos (by norm_num)
  exact mul_lt_mul_of_pos_right h this

lemma radians_90 : radians 90 = Real.pi / 2 := by unfold radians; ring

lemma radians_neg_90 : radians (-90) = -(Real.pi / 2) := by unfold radians; ring

lemma radians_360 : radians 360 = 2 * Real.pi := by unfold radians; ring

lemma radians_neg_360 : radians (-360) = -(2 * Real.pi) := by unfold radians; ring

lemma radians_zero : radians 0 = 0 := by unfold radians; ring

lemma radians_eq_zero_iff {u : ℝ} : radians u = 0 ↔ u = 0 := by
  unfold radians
  rw [mul_eq_zero, div_eq_zero_iff]
  constructor
  · rintro (h | h | h)
    · exact h
    · exact absurd h Real.pi_ne_zero
    · norm_num at h
  · exact fun h => Or.inl h

lemma degrees_le_degrees {u v : ℝ} (h : u ≤ v) : degrees u ≤ degrees v := by
  unfold degrees
  have : (0:ℝ) < 180 / Real.pi := div_pos (by norm_num) Real.pi_pos
  exact mul_le_mul_of_nonneg_right h this.le

lemma degrees_pi_div_two : degrees (Real.pi / 2) = 90 := by
  unfold degrees
  field_simp
  ring

lemma degrees_neg_pi_div_two : degrees (-(Real.pi / 2)) = -90 := by
  unfold degrees
  field_simp
  ring

lemma degrees_pi : degrees Real.pi = 180 := by
  unfold degrees
  field_simp

lemma degrees_neg_pi : degrees (-Real.pi) = -180 := by
  unfold degrees
  field_simp
  ring

lemma cos_radians_nonneg {u : ℝ} (h1 : -90 ≤ u) (h2 : u ≤ 90) :
    0 ≤ Real.cos (radians u) := by
  apply Real.cos_nonneg_of_mem_Icc
  constructor
  · rw [← radians_neg_90]; exact radians_le_radians h1
  · rw [← radians_90]; exact radians_le_radians h2

lemma cos_radians_pos {u : ℝ} (h1 : -90 < u) (h2 : u < 90) :
    0 < Real.cos (radians u) := by
  apply Real.cos_pos_of_mem_Ioo
  constructor
  · rw [← radians_neg_90]; exact radians_lt_radians h1
  · rw [← radians_90]; exact radians_lt_radians h2

lemma sin_radians_half_eq_zero_iff {d : ℝ} (h1 : -360 < d) (h2 : d < 360) :
    (Real.sin (radians d / 2) = 0 ↔ d = 0) := by
  have hl : -Real.pi < radians d / 2 := by
    have := radians_lt_radians h1
    rw [radians_neg_360] at this
    linarith
  have hr : radians d / 2 < Real.pi := by
    have := radians_lt_radians h2
    rw [radians_360] at this
    linarith
  rw [Real.sin_eq_zero_iff_of_lt_of_lt hl hr, div_eq_zero_iff,
    radians_eq_zero_iff]
  constructor
  · rintro (h | h)
    · exact h
    · norm_num at h
  · exact fun h => Or.inl h

/-! ### Structural lemmas about the pipeline -/

lemma errResponse_ne_ok (e : PyErr) (r : MidpointResult) :
    errResponse e ≠ .ok r := by
  cases e <;> simp [errResponse]

lemma geocode_city_calls (env : Env) (a : String) (h : env.tokenSet = true) :
    (geocode_city env a).2 = [NetCall.geo a] := by
  unfold geocode_city
  rw [if_neg (by simp [h])]

lemma geographic_centroid_cons (p : ℝ × ℝ) (l : List (ℝ × ℝ)) :
    ∃ c, geographic_centroid (p :: l) = .ok c := ⟨_, rfl⟩

lemma nx_star_AB (w : Node → Node → ℝ) :
    nx_shortest_path w .A .B = some [.A, .M, .B] := rfl

lemma nx_star_AC (w : Node → Node → ℝ) :
    nx_shortest_path w .A .C = some [.A, .M, .C] := rfl

lemma nx_star_BC (w : Node → Node → ℝ) :
    nx_shortest_path w .B .C = some [.B, .M, .C] := rfl

/-- Every run of `midpoint_api` either fails, surfacing some raised exception
through `errResponse` with the history untouched, or succeeds, appending
exactly the returned record to the history; in the latter case the three
graph paths are the star paths through `M`. -/
lemma midpoint_api_shape (env : Env) (oa ob oc : Option String)
    (hist : List MidpointResult) :
    (∃ e k, midpoint_api env oa ob oc hist = (errResponse e, hist, k))
  ∨ (∃ r k, midpoint_api env oa ob oc hist = (.ok r, hist ++ [r], k)
      ∧ r.path_A_B = some [Node.A, Node.M, Node.B]
      ∧ r.path_A_C = some [Node.A, Node.M, Node.C]
      ∧ r.path_B_C = some [Node.B, Node.M, Node.C]) := by
  rcases oa with _ | a
  · exact Or.inl ⟨.valueError "Forneça cityA, cityB e cityC", [], rfl⟩
  rcases ob with _ | b
  · exact Or.inl ⟨.valueError "Forneça cityA, cityB e cityC", [], rfl⟩
  rcases oc with _ | c
  · exact Or.inl ⟨.valueError "Forneça cityA, cityB e cityC", [], rfl⟩
  by_cases hval : a = "" ∨ b = "" ∨ c = ""
  · refine Or.inl ⟨.valueError "Forneça cityA, cityB e cityC", [], ?_⟩
    simp only [midpoint_api]
    rw [if_pos hval]
    rfl
  simp only [midpoint_api]
  rw [if_neg hval]
  rcases hg1 : geocode_city env a with ⟨e | ⟨latA, lonA, rawA⟩, k1⟩
  · exact Or.inl ⟨e, k1, rfl⟩
  rcases hg2 : geocode_city env b with ⟨e | ⟨latB, lonB, rawB⟩, k2⟩
  · exact Or.inl ⟨e, k1 ++ k2, rfl⟩
  rcases hg3 : geocode_city env c with ⟨e | ⟨latC, lonC, rawC⟩, k3⟩
  · exact Or.inl ⟨e, k1 ++ k2 ++ k3, rfl⟩
  obtain ⟨⟨latM, lonM⟩, hcen⟩ :=
    geographic_centroid_cons (latA, lonA) [(latB, lonB), (latC, lonC)]
  dsimp only
  rw [hcen]
  dsimp only
  rcases hrev : reverse_geocode env latM lonM with ⟨e | midRaw, k4⟩
  · exact Or.inl ⟨e, k1 ++ k2 ++ k3 ++ k4, rfl⟩
  exact Or.inr ⟨_, k1 ++ k2 ++ k3 ++ k4, rfl, rfl, rfl, rfl⟩

/-! ### Claim theorems -/

/-- C1 (counterexample): two non-empty place names (with `cityC` absent) do
NOT proceed to geocoding: the pipeline rejects them with the
`InvalidInputError` response (400, message `Forneça cityA, cityB e cityC`)
and performs no network call, contradicting the claim that every input of
2 non-empty names is accepted. -/
theorem c1_counterexample :
    midpoint_api envDown (some "Roma") (some "Milano") none [] =
      (.clientError "Forneça cityA, cityB e cityC", [], []) := rfl

/-- C1 (amended): the pipeline accepts exactly 3 non-empty names: for every
input with all of `cityA`, `cityB`, `cityC` present and non-empty it proceeds
to geocoding (the first network call is the forward geocode of `cityA`, when
the token is configured), and every other input — any name missing or empty —
fails with the `InvalidInputError` response before any network call. -/
theorem c1_arity (env : Env) :
    (∀ (a b c : String) (hist : List MidpointResult),
      a ≠ "" → b ≠ "" → c ≠ "" → env.tokenSet = true →
      (midpoint_api env (some a) (some b) (some c) hist).2.2.head? =
        some (NetCall.geo a))
  ∧ (∀ (oa ob oc : Option String) (hist : List MidpointResult),
      (∀ a b c, oa = some a → ob = some b → oc = some c →
        a = "" ∨ b = "" ∨ c = "") →
      midpoint_api env oa ob oc hist =
        (.clientError "Forneça cityA, cityB e cityC", hist, [])) := by
  constructor
  · intro a b c hist ha hb hc htok
    have hval : ¬(a = "" ∨ b = "" ∨ c = "") := by
      rintro (h | h | h)
      · exact ha h
      · exact hb h
      · exact hc h
    simp only [midpoint_api]
    rw [if_neg hval]
    rcases hg1 : geocode_city env a with ⟨r1, k1⟩
    have hk1 : k1 = [NetCall.geo a] := by
      have := geocode_city_calls env a htok
      rw [hg1] at this
      exact this
    rcases r1 with e | ⟨latA, lonA, rawA⟩
    · simp [hk1]
    rcases hg2 : geocode_city env b with ⟨r2, k2⟩
    rcases r2 with e | ⟨latB, lonB, rawB⟩
    · simp [hk1]
    rcases hg3 : geocode_city env c with ⟨r3, k3⟩
    rcases r3 with e | ⟨latC, lonC, rawC⟩
    · simp [hk1]
    obtain ⟨⟨latM, lonM⟩, hcen⟩ :=
      geographic_centroid_cons (latA, lonA) [(latB, lonB), (latC, lonC)]
    dsimp only
    rw [hcen]
    dsimp only
    rcases hrev : reverse_geocode env latM lonM with ⟨r4, k4⟩
    rcases r4 with e | midRaw
    · simp [hk1]
    · simp [hk1]
  · intro oa ob oc hist h
    rcases oa with _ | a
    · rfl
    rcases ob with _ | b
    · rfl
    rcases oc with _ | c
    · rfl
    have hval : a = "" ∨ b = "" ∨ c = "" := h a b c rfl rfl rfl
    simp only [midpoint_api]
    rw [if_pos hval]

/-- C1 (witness): with the remote service reachable through `envDown`'s token,
three non-empty names lead to a first network call geocoding `cityA`; and two
names with an empty third are rejected with the `InvalidInputError` response,
no history change, and no network calls. -/
theorem c1_witness :
    (midpoint_api envDown (some "Roma") (some "Milano") (some "Pisa")
        []).2.2.head? = some (NetCall.geo "Roma")
  ∧ midpoint_api envDown (some "Roma") (some "") (some "Pisa") [] =
      (.clientError "Forneça cityA, cityB e cityC", [], []) :=
  ⟨(c1_arity envDown).1 "Roma" "Milano" "Pisa" []
      (by decide) (by decide) (by decide) rfl,
   (c1_arity envDown).2 (some "Roma") (some "") (some "Pisa") []
      (fun a b c h1 h2 h3 =>
        Or.inr (Or.inl (Option.some.inj h2).symm))⟩

/-- C2: every successful pipeline run returns a record whose graph contains
exactly the 3 pairwise routes, and each of them is the three-node star path
`[X, "M", Y]` through the computed center. -/
theorem c2_star_paths (env : Env) (oa ob oc : Option String)
    (hist : List MidpointResult) (r : MidpointResult)
    (h : (midpoint_api env oa ob oc hist).1 = .ok r) :
    r.path_A_B = some [Node.A, Node.M, Node.B] ∧
    r.path_A_C = some [Node.A, Node.M, Node.C] ∧
    r.path_B_C = some [Node.B, Node.M, Node.C] := by
  rcases midpoint_api_shape env oa ob oc hist with
    ⟨e, k, hout⟩ | ⟨r2, k, hout, h1, h2, h3⟩
  · rw [hout] at h
    exact absurd h (errResponse_ne_ok e r)
  · rw [hout] at h
    simp only [ApiResponse.ok.injEq] at h
    subst h
    exact ⟨h1, h2, h3⟩

/-- C2 (witness): a concrete successful 3-input run through `envOK` returns
the three star routes. -/
theorem c2_witness :
    (getRecord (midpoint_api envOK (some "A") (some "B") (some "C")
        []).1).path_A_B = some [Node.A, Node.M, Node.B] ∧
    (getRecord (midpoint_api envOK (some "A") (some "B") (some "C")
        []).1).path_A_C = some [Node.A, Node.M, Node.C] ∧
    (getRecord (midpoint_api envOK (some "A") (some "B") (some "C")
        []).1).path_B_C = some [Node.B, Node.M, Node.C] :=
  c2_star_paths envOK (some "A") (some "B") (some "C") []
    (getRecord (midpoint_api envOK (some "A") (some "B") (some "C") []).1) rfl

/-- C5: a failed pipeline run produces no partial result: whenever the
response is not `ok`, the history is unchanged; a failing forward geocode of
the first city aborts the run with exactly that error; and a failing reverse
geocode of the center, after all three forward geocodes succeeded, aborts the
run with exactly that error and no history change. -/
theorem c5_failure_aborts :
    (∀ (env : Env) (oa ob oc : Option String) (hist : List MidpointResult),
      (∀ r, (midpoint_api env oa ob oc hist).1 ≠ .ok r) →
      (midpoint_api env oa ob oc hist).2.1 = hist)
  ∧ (∀ (env : Env) (a b c : String) (hist : List MidpointResult) (e : PyErr)
      (k1 : List NetCall), a ≠ "" → b ≠ "" → c ≠ "" →
      geocode_city env a = (.error e, k1) →
      midpoint_api env (some a) (some b) (some c) hist =
        (errResponse e, hist, k1))
  ∧ (∀ (env : Env) (a b c : String) (hist : List MidpointResult)
      (latA lonA latB lonB latC lonC : ℝ) (rawA rawB rawC : Element)
      (cen : ℝ × ℝ) (e : PyErr) (k1 k2 k3 k4 : List NetCall),
      a ≠ "" → b ≠ "" → c ≠ "" →
      geocode_city env a = (.ok (latA, lonA, rawA), k1) →
      geocode_city env b = (.ok (latB, lonB, rawB), k2) →
      geocode_city env c = (.ok (latC, lonC, rawC), k3) →
      geographic_centroid [(latA, lonA), (latB, lonB), (latC, lonC)] =
        .ok cen →
      reverse_geocode env cen.1 cen.2 = (.error e, k4) →
      midpoint_api env (some a) (some b) (some c) hist =
        (errResponse e, hist, k1 ++ k2 ++ k3 ++ k4)) := by
  refine ⟨?_, ?_, ?_⟩
  · intro env oa ob oc hist hne
    rcases midpoint_api_shape env oa ob oc hist with
      ⟨e, k, hout⟩ | ⟨r, k, hout, -, -, -⟩
    · rw [hout]
    · exact absurd (by rw [hout]) (hne r)
  · intro env a b c hist e k1 ha hb hc hg1
    have hval : ¬(a = "" ∨ b = "" ∨ c = "") := by
      rintro (h | h | h)
      · exact ha h
      · exact hb h
      · exact hc h
    simp only [midpoint_api]
    rw [if_neg hval, hg1]
  · intro env a b c hist latA lonA latB lonB latC lonC rawA rawB rawC cen e
      k1 k2 k3 k4 ha hb hc hg1 hg2 hg3 hcen hrev
    obtain ⟨clat, clon⟩ := cen
    dsimp only at hrev
    have hval : ¬(a = "" ∨ b = "" ∨ c = "") := by
      rintro (h | h | h)
      · exact ha h
      · exact hb h
      · exact hc h
    simp only [midpoint_api]
    rw [if_neg hval, hg1]
    dsimp only
    rw [hg2]
    dsimp only
    rw [hg3]
    dsimp only
    rw [hcen]
    dsimp only
    rw [hrev]

/-- C5 (witness): concrete aborted runs: an invalid-input run leaves the
history unchanged; a transport failure on the first geocode aborts with the
502 response and unchanged history; a reverse-geocode transport failure after
three successful geocodes aborts with the 502 response and unchanged
history. -/
theorem c5_witness :
    (midpoint_api envDown (some "x") (some "y") none [emptyRecord]).2.1 =
      [emptyRecord]
  ∧ midpoint_api envDown (some "Roma") (some "Milano") (some "Pisa") [] =
      (errResponse .requestError, [], [NetCall.geo "Roma"])
  ∧ midpoint_api envRevFail (some "A") (some "B") (some "C") [] =
      (errResponse .requestError, [],
        [NetCall.geo "A"] ++ [NetCall.geo "B"] ++ [NetCall.geo "C"] ++
          [NetCall.rev (centroidOr [((0:ℝ), (0:ℝ)), (0, 0), (0, 0)]).1
            (centroidOr [((0:ℝ), (0:ℝ)), (0, 0), (0, 0)]).2]) :=
  ⟨c5_failure_aborts.1 envDown (some "x") (some "y") none [emptyRecord]
      (fun _ h => nomatch h),
   c5_failure_aborts.2.1 envDown "Roma" "Milano" "Pisa" [] .requestError
      [NetCall.geo "Roma"] (by decide) (by decide) (by decide) rfl,
   c5_failure_aborts.2.2 envRevFail "A" "B" "C" [] 0 0 0 0 0 0 elOK elOK elOK
      (centroidOr [((0:ℝ), (0:ℝ)), (0, 0), (0, 0)]) .requestError
      [NetCall.geo "A"] [NetCall.geo "B"] [NetCall.geo "C"]
      [NetCall.rev (centroidOr [((0:ℝ), (0:ℝ)), (0, 0), (0, 0)]).1
        (centroidOr [((0:ℝ), (0:ℝ)), (0, 0), (0, 0)]).2]
      (by decide) (by decide) (by decide) rfl rfl rfl rfl rfl⟩

/-- C6: `geographic_centroid` fails with the empty-input `ValueError` on an
empty list of points, and returns a coordinate without failing on every
non-empty list. -/
theorem c6_empty_centroid :
    geographic_centroid ([] : List (ℝ × ℝ)) =
      .error (.valueError "Lista de pontos vazia no cálculo de centróide.")
  ∧ ∀ ps : List (ℝ × ℝ), ps ≠ [] →
      exceptOk (geographic_centroid ps) = true := by
  constructor
  · rfl
  · intro ps h
    cases ps with
    | nil => exact absurd rfl h
    | cons p l => rfl

/-- C6 (witness): the centroid of the single point `(0, 0)` is returned
without failing. -/
theorem c6_witness :
    exceptOk (geographic_centroid [((0:ℝ), (0:ℝ))]) = true :=
  c6_empty_centroid.2 [((0:ℝ), (0:ℝ))] (by simp)

/-- C10: each successful pipeline run appends exactly the returned record to
the results history and changes nothing else about it; a failed run leaves
the history unchanged. -/
theorem c10_history_frame (env : Env) (oa ob oc : Option String)
    (hist : List MidpointResult) :
    (∀ r, (midpoint_api env oa ob oc hist).1 = .ok r →
      (midpoint_api env oa ob oc hist).2.1 = hist ++ [r])
  ∧ ((∀ r, (midpoint_api env oa ob oc hist).1 ≠ .ok r) →
      (midpoint_api env oa ob oc hist).2.1 = hist) := by
  rcases midpoint_api_shape env oa ob oc hist with
    ⟨e, k, hout⟩ | ⟨r2, k, hout, -, -, -⟩
  · constructor
    · intro r h
      rw [hout] at h
      exact absurd h (errResponse_ne_ok e r)
    · intro _
      rw [hout]
  · constructor
    · intro r h
      rw [hout] at h
      simp only [ApiResponse.ok.injEq] at h
      subst h
      rw [hout]
    · intro hne
      exact absurd (by rw [hout]) (hne r2)

/-- C10 (witness): a concrete successful run through `envOK` appends exactly
the returned record to an empty history; a concrete invalid run leaves a
one-element history unchanged. -/
theorem c10_witness :
    (midpoint_api envOK (some "A") (some "B") (some "C") []).2.1 =
      [] ++ [getRecord (midpoint_api envOK (some "A") (some "B") (some "C")
        []).1]
  ∧ (midpoint_api envDown (some "x") (some "y") none [emptyRecord]).2.1 =
      [emptyRecord] :=
  ⟨(c10_history_frame envOK (some "A") (some "B") (some "C") []).1
      (getRecord (midpoint_api envOK (some "A") (some "B") (some "C") []).1)
      rfl,
   (c10_history_frame envDown (some "x") (some "y") none [emptyRecord]).2
      (fun _ h => nomatch h)⟩


/-- C4 (counterexample): a forward-geocode response whose element lacks the
latitude field does NOT fail with the catchable `InvalidCoordinateError`:
`element["latitude"]` raises `KeyError`, which no `except` clause of the
pipeline catches, so the failure surfaces as an unhandled error (Flask 500),
not as a client-side 400 failure. -/
theorem c4_counterexample :
    (geocode_city envNoLat "A").1 = .error (.keyError "latitude") ∧
    midpoint_api envNoLat (some "A") (some "B") (some "C") [] =
      (.unhandled (.keyError "latitude"), [], [NetCall.geo "A"]) :=
  ⟨rfl, rfl⟩

/-- C4 (amended): when the element's latitude value is present but is a
non-numeric string, `float` raises `ValueError` (the `InvalidCoordinateError`
of the spec) and the pipeline surfaces it as a client-side 400 failure; when
the latitude field is absent, the lookup raises `KeyError`, which the
pipeline does not catch (unhandled error, not a client-side failure); the
same `KeyError` behaviour applies to a missing longitude field. -/
theorem c4_coordinate_errors :
    (∀ (env : Env) (a : String) (d : RespData) (el : Element),
      env.tokenSet = true → env.geocode a = .payload d → d.success = true →
      d.element = some el → el.lookup "latitude" = some (PyVal.str none) →
      (geocode_city env a).1 =
        .error (.valueError "could not convert string to float") ∧
      errResponse (.valueError "could not convert string to float") =
        .clientError "could not convert string to float")
  ∧ (∀ (env : Env) (a : String) (d : RespData) (el : Element),
      env.tokenSet = true → env.geocode a = .payload d → d.success = true →
      d.element = some el → el.lookup "latitude" = none →
      (geocode_city env a).1 = .error (.keyError "latitude") ∧
      errResponse (.keyError "latitude") = .unhandled (.keyError "latitude"))
  ∧ (∀ (env : Env) (a : String) (d : RespData) (el : Element) (x : ℝ),
      env.tokenSet = true → env.geocode a = .payload d → d.success = true →
      d.element = some el → el.lookup "latitude" = some (PyVal.num x) →
      el.lookup "longitude" = none →
      (geocode_city env a).1 = .error (.keyError "longitude")) := by
  refine ⟨?_, ?_, ?_⟩
  · intro env a d el htok hgeo hsucc hel hlat
    refine ⟨?_, rfl⟩
    unfold geocode_city
    rw [if_neg (by simp [htok]), hgeo]
    dsimp only
    rw [if_neg (by simp [hsucc])]
    simp [extract_element, hel, dictGet, hlat, pyFloat]
  · intro env a d el htok hgeo hsucc hel hlat
    refine ⟨?_, rfl⟩
    unfold geocode_city
    rw [if_neg (by simp [htok]), hgeo]
    dsimp only
    rw [if_neg (by simp [hsucc])]
    simp [extract_element, hel, dictGet, hlat]
  · intro env a d el x htok hgeo hsucc hel hlat hlon
    unfold geocode_city
    rw [if_neg (by simp [htok]), hgeo]
    dsimp only
    rw [if_neg (by simp [hsucc])]
    simp [extract_element, hel, dictGet, hlat, hlon, pyFloat]

/-- C4 (witness): concrete geocode responses: a non-numeric latitude string
yields the catchable `ValueError` surfaced as a 400; a missing latitude
yields `KeyError` surfaced as an unhandled error; a missing longitude yields
`KeyError "longitude"`. -/
theorem c4_witness :
    ((geocode_city ⟨true, fun _ => .payload ⟨true, some elStr, none⟩,
        fun _ _ => .netError⟩ "A").1 =
      .error (.valueError "could not convert string to float") ∧
     errResponse (.valueError "could not convert string to float") =
      .clientError "could not convert string to float")
  ∧ ((geocode_city envNoLat "A").1 = .error (.keyError "latitude") ∧
     errResponse (.keyError "latitude") = .unhandled (.keyError "latitude"))
  ∧ (geocode_city ⟨true, fun _ => .payload ⟨true, some elNoLon, none⟩,
        fun _ _ => .netError⟩ "A").1 = .error (.keyError "longitude") :=
  ⟨c4_coordinate_errors.1 ⟨true, fun _ => .payload ⟨true, some elStr, none⟩,
      fun _ _ => .netError⟩ "A" ⟨true, some elStr, none⟩ elStr
      rfl rfl rfl rfl rfl,
   c4_coordinate_errors.2.1 envNoLat "A" ⟨true, some elNoLat, none⟩ elNoLat
      rfl rfl rfl rfl rfl,
   c4_coordinate_errors.2.2 ⟨true, fun _ => .payload ⟨true, some elNoLon,
      none⟩, fun _ _ => .netError⟩ "A" ⟨true, some elNoLon, none⟩ elNoLon 0
      rfl rfl rfl rfl rfl rfl⟩

/-! ### Lemmas about `hav_a` and `haversine` -/

lemma hav_a_nonneg {lat1 lon1 lat2 lon2 : ℝ} (h1 : -90 ≤ lat1)
    (h2 : lat1 ≤ 90) (h3 : -90 ≤ lat2) (h4 : lat2 ≤ 90) :
    0 ≤ hav_a lat1 lon1 lat2 lon2 := by
  unfold hav_a
  have c1 := cos_radians_nonneg h1 h2
  have c2 := cos_radians_nonneg h3 h4
  have s1 := sq_nonneg (Real.sin (radians (lat2 - lat1) / 2))
  have s2 := sq_nonneg (Real.sin (radians (lon2 - lon1) / 2))
  nlinarith [mul_nonneg (mul_nonneg c1 c2) s2]

lemma haversine_eq_zero_iff_hav_a {lat1 lon1 lat2 lon2 : ℝ}
    (hA : 0 ≤ hav_a lat1 lon1 lat2 lon2) :
    (haversine lat1 lon1 lat2 lon2 = 0 ↔ hav_a lat1 lon1 lat2 lon2 = 0) := by
  unfold haversine
  constructor
  · intro h
    have h2 : atan2 (Real.sqrt (hav_a lat1 lon1 lat2 lon2))
        (Real.sqrt (1 - hav_a lat1 lon1 lat2 lon2)) = 0 := by linarith
    have h3 := (atan2_eq_zero_iff_of_nonneg (Real.sqrt_nonneg _)
      (Real.sqrt_nonneg _)).1 h2
    have h4 : hav_a lat1 lon1 lat2 lon2 ≤ 0 := Real.sqrt_eq_zero'.1 h3
    linarith
  · intro h
    rw [h, Real.sqrt_zero, show (1:ℝ) - 0 = 1 by ring, Real.sqrt_one,
      atan2_of_pos one_pos, zero_div, Real.arctan_zero]
    ring

lemma hav_a_eq_zero_iff {lat1 lon1 lat2 lon2 : ℝ}
    (h1 : -90 < lat1) (h2 : lat1 < 90) (h3 : -90 < lat2) (h4 : lat2 < 90)
    (h5 : -180 < lon1) (h6 : lon1 ≤ 180) (h7 : -180 < lon2) (h8 : lon2 ≤ 180) :
    (hav_a lat1 lon1 lat2 lon2 = 0 ↔ lat1 = lat2 ∧ lon1 = lon2) := by
  unfold hav_a
  have c1 := cos_radians_pos h1 h2
  have c2 := cos_radians_pos h3 h4
  constructor
  · intro h
    have s1 := sq_nonneg (Real.sin (radians (lat2 - lat1) / 2))
    have s2 := sq_nonneg (Real.sin (radians (lon2 - lon1) / 2))
    have hcc := mul_pos c1 c2
    have s1sq : Real.sin (radians (lat2 - lat1) / 2) ^ 2 = 0 := by
      nlinarith [mul_nonneg hcc.le s2]
    have s2sq : Real.sin (radians (lon2 - lon1) / 2) ^ 2 = 0 := by
      nlinarith [mul_nonneg hcc.le s2]
    have e1 : lat2 - lat1 = 0 :=
      (sin_radians_half_eq_zero_iff (by linarith) (by linarith)).1
        ((pow_eq_zero_iff two_ne_zero).1 s1sq)
    have e2 : lon2 - lon1 = 0 :=
      (sin_radians_half_eq_zero_iff (by linarith) (by linarith)).1
        ((pow_eq_zero_iff two_ne_zero).1 s2sq)
    constructor
    · linarith
    · linarith
  · rintro ⟨e1, e2⟩
    rw [e1, e2, sub_self, sub_self, radians_zero, zero_div, Real.sin_zero]
    ring

/-- C3 (counterexample): the two distinct coordinate pairs `(0, -180)` and
`(0, 180)` both lie in the claimed latitude/longitude ranges, yet the
haversine distance between them is 0 (they name the same meridian), refuting
`distance = 0` only for identical pairs. -/
theorem c3_counterexample :
    haversine 0 (-180) 0 180 = 0 ∧
    ¬(((0:ℝ), (-180:ℝ)) = ((0:ℝ), (180:ℝ))) := by
  constructor
  · have hA : hav_a 0 (-180) 0 180 = 0 := by
      unfold hav_a
      have e1 : radians (0 - 0) / 2 = 0 := by unfold radians; ring
      have e2 : radians (180 - -180) / 2 = Real.pi := by unfold radians; ring
      rw [e1, e2, Real.sin_zero, Real.sin_pi]
      ring
    unfold haversine
    rw [hA, Real.sqrt_zero, show (1:ℝ) - 0 = 1 by ring, Real.sqrt_one,
      atan2_of_pos one_pos, zero_div, Real.arctan_zero]
    ring
  · simp only [Prod.mk.injEq]
    norm_num

/-- C3 (amended): for coordinates in the claimed closed ranges the haversine
distance is non-negative; and when both latitudes are strictly inside
`(-90, 90)` and both longitudes strictly above `-180` (so that each point of
the sphere has a unique representative), the distance is 0 exactly when the
two `(latitude, longitude)` pairs coincide. -/
theorem c3_zero_iff (lat1 lon1 lat2 lon2 : ℝ)
    (h1 : -90 ≤ lat1) (h2 : lat1 ≤ 90) (h3 : -90 ≤ lat2) (h4 : lat2 ≤ 90)
    (_h5 : -180 ≤ lon1) (h6 : lon1 ≤ 180) (_h7 : -180 ≤ lon2)
    (h8 : lon2 ≤ 180) :
    0 ≤ haversine lat1 lon1 lat2 lon2 ∧
    (-90 < lat1 → lat1 < 90 → -90 < lat2 → lat2 < 90 →
     -180 < lon1 → -180 < lon2 →
      (haversine lat1 lon1 lat2 lon2 = 0 ↔ lat1 = lat2 ∧ lon1 = lon2)) := by
  constructor
  · have ht := atan2_nonneg
      (Real.sqrt_nonneg (hav_a lat1 lon1 lat2 lon2))
      (Real.sqrt_nonneg (1 - hav_a lat1 lon1 lat2 lon2))
    unfold haversine
    linarith
  · intro s1 s2 s3 s4 s5 s6
    rw [haversine_eq_zero_iff_hav_a (hav_a_nonneg h1 h2 h3 h4)]
    exact hav_a_eq_zero_iff s1 s2 s3 s4 s5 h6 s6 h8

/-- C3 (witness): at the origin pair, the distance is non-negative and the
zero-distance criterion holds. -/
theorem c3_witness :
    0 ≤ haversine 0 0 0 0 ∧
    (haversine 0 0 0 0 = 0 ↔ (0:ℝ) = 0 ∧ (0:ℝ) = 0) := by
  have h := c3_zero_iff 0 0 0 0 (by norm_num) (by norm_num) (by norm_num)
    (by norm_num) (by norm_num) (by norm_num) (by norm_num) (by norm_num)
  exact ⟨h.1, h.2 (by norm_num) (by norm_num) (by norm_num) (by norm_num)
    (by norm_num) (by norm_num)⟩

/-- C7: the haversine distance is symmetric in its two coordinate
arguments, for all real inputs. -/
theorem c7_haversine_symm (lat1 lon1 lat2 lon2 : ℝ) :
    haversine lat1 lon1 lat2 lon2 = haversine lat2 lon2 lat1 lon1 := by
  have key : hav_a lat1 lon1 lat2 lon2 = hav_a lat2 lon2 lat1 lon1 := by
    unfold hav_a
    have e1 : radians (lat1 - lat2) = -radians (lat2 - lat1) := by
      unfold radians; ring
    have e2 : radians (lon1 - lon2) = -radians (lon2 - lon1) := by
      unfold radians; ring
    rw [e1, e2, neg_div, Real.sin_neg, neg_div, Real.sin_neg]
    ring
  unfold haversine
  rw [key]

/-- C8: for coordinates in the claimed ranges, the haversine distance is at
most `π` times the Earth radius 6371 km (the antipodal maximum). -/
theorem c8_upper_bound (lat1 lon1 lat2 lon2 : ℝ)
    (_h1 : -90 ≤ lat1) (_h2 : lat1 ≤ 90) (_h3 : -90 ≤ lat2) (_h4 : lat2 ≤ 90)
    (_h5 : -180 ≤ lon1) (_h6 : lon1 ≤ 180) (_h7 : -180 ≤ lon2)
    (_h8 : lon2 ≤ 180) :
    haversine lat1 lon1 lat2 lon2 ≤ Real.pi * 6371 := by
  have ht := @atan2_le_pi_div_two
    (Real.sqrt (hav_a lat1 lon1 lat2 lon2))
    (Real.sqrt (1 - hav_a lat1 lon1 lat2 lon2))
    (Real.sqrt_nonneg _)
  unfold haversine
  linarith

/-- C8 (witness): the bound holds at the origin pair. -/
theorem c8_witness : haversine 0 0 0 0 ≤ Real.pi * 6371 :=
  c8_upper_bound 0 0 0 0 (by norm_num) (by norm_num) (by norm_num)
    (by norm_num) (by norm_num) (by norm_num) (by norm_num) (by norm_num)

/-- C9: every coordinate returned by `geographic_centroid` is valid:
the latitude lies in `[-90, 90]` (an `atan2` against a non-negative
hypotenuse) and the longitude lies in `[-180, 180]` (a plain `atan2`). -/
theorem c9_centroid_in_range (ps : List (ℝ × ℝ)) (latM lonM : ℝ)
    (h : geographic_centroid ps = .ok (latM, lonM)) :
    (-90 ≤ latM ∧ latM ≤ 90) ∧ (-180 ≤ lonM ∧ lonM ≤ 180) := by
  unfold geographic_centroid at h
  by_cases hps : ps.isEmpty
  · rw [if_pos hps] at h
    exact absurd h (by simp)
  · rw [if_neg hps] at h
    simp only [Except.ok.injEq, Prod.mk.injEq] at h
    obtain ⟨hlat, hlon⟩ := h
    subst hlat
    subst hlon
    constructor
    · constructor
      · rw [← degrees_neg_pi_div_two]
        exact degrees_le_degrees
          (neg_pi_div_two_le_atan2 (Real.sqrt_nonneg _))
      · rw [← degrees_pi_div_two]
        exact degrees_le_degrees (atan2_le_pi_div_two (Real.sqrt_nonneg _))
    · constructor
      · rw [← degrees_neg_pi]
        exact degrees_le_degrees (neg_pi_lt_atan2 _ _).le
      · rw [← degrees_pi]
        exact degrees_le_degrees (atan2_le_pi _ _)

/-- C9 (witness): the centroid of the single point `(0, 0)` has latitude in
`[-90, 90]` and longitude in `[-180, 180]`. -/
theorem c9_witness :
    (-90 ≤ (centroidOr [((0:ℝ), (0:ℝ))]).1 ∧
      (centroidOr [((0:ℝ), (0:ℝ))]).1 ≤ 90) ∧
    (-180 ≤ (centroidOr [((0:ℝ), (0:ℝ))]).2 ∧
      (centroidOr [((0:ℝ), (0:ℝ))]).2 ≤ 180) :=
  c9_centroid_in_range [((0:ℝ), (0:ℝ))] (centroidOr [((0:ℝ), (0:ℝ))]).1
    (centroidOr [((0:ℝ), (0:ℝ))]).2 rfl

end PontoMedio
